import Mathlib

/-!
Shallow embedding of the two programs of the F5-TTS repository:
`src/f5_tts/fastapi_server.py` (the inference service) and
`test_model_load.py` (the standalone diagnostic script).

The service keeps four module-level globals (`f5tts_instance`,
`current_model`, `current_ckpt_file`, `model_loaded`); they are embedded as
the fields of `ServerState`.  The external F5TTS constructor and the
inference call are modelled by per-call outcome parameters (`LoadOutcome`,
an `Option String` failure message for inference), since whether they throw
depends on the outside world.  Constructor invocations are recorded in a
trace so that claims about "how many constructions happen" and "with which
arguments" are statements about the trace.  Raised Python exceptions are
values of `PyExn`; a handler that raises is embedded as returning
`Except.error`.
-/

/-- An F5TTS engine instance, identified by the constructor arguments
`F5TTS(model=..., ckpt_file=..., vocab_file=...)` used to build it. -/
structure F5TTS where
  model : String
  ckpt_file : String
  vocab_file : String
deriving DecidableEq, Repr

/-- The module-level globals of `fastapi_server.py` (lines 29-32):
`f5tts_instance`, `current_model`, `current_ckpt_file`, `model_loaded`. -/
structure ServerState where
  f5tts_instance : Option F5TTS
  current_model : Option String
  current_ckpt_file : Option String
  model_loaded : Bool
deriving DecidableEq, Repr

/-- Line 24: `DEFAULT_MODEL = "F5TTS_v1_Base"`. -/
def DEFAULT_MODEL : String := "F5TTS_v1_Base"

/-- Line 25: `DEFAULT_CKPT_FILE = "models/F5-TTS/F5TTS_v1_Base/model_1250000.safetensors"`. -/
def DEFAULT_CKPT_FILE : String := "models/F5-TTS/F5TTS_v1_Base/model_1250000.safetensors"

/-- Line 26: `DEFAULT_VOCAB_FILE = "models/F5-TTS/F5TTS_v1_Base/vocab.txt"`. -/
def DEFAULT_VOCAB_FILE : String := "models/F5-TTS/F5TTS_v1_Base/vocab.txt"

/-- The state at module import time: no instance, no current model or
checkpoint, `model_loaded = False` (lines 29-32). -/
def initialState : ServerState :=
  { f5tts_instance := none, current_model := none,
    current_ckpt_file := none, model_loaded := false }

/-- A raised Python exception: either a (fast)API `HTTPException` carrying a
status code and a detail string, or any other exception carrying its
message. -/
inductive PyExn where
  | http (status : Nat) (detail : String)
  | other (msg : String)
deriving DecidableEq, Repr

/-- Python `str(e)`.  For `HTTPException`, starlette renders
`f"{status_code}: {detail}"`; for other exceptions the message itself. -/
def strOfExn : PyExn → String
  | .http status detail => toString status ++ ": " ++ detail
  | .other msg => msg

/-- Outcome of one attempt to import the `f5_tts` package and run the
`F5TTS(...)` constructor (lines 57-67): the import may throw
(`lazy_import_f5tts` re-raises), the constructor may throw, or both
succeed.  This is the per-call behaviour of the external library. -/
inductive LoadOutcome where
  | success
  | importFail (msg : String)
  | constructFail (msg : String)
deriving DecidableEq, Repr

/-- A record of one invocation of the `F5TTS(...)` constructor, with the
arguments it was given. -/
structure ConstructorCall where
  model : String
  ckpt_file : String
  vocab_file : String
deriving DecidableEq, Repr

/-- The reload guard of `get_f5tts_instance` (lines 51-53):
`f5tts_instance is None or current_model != model or
current_ckpt_file != ckpt_file`. -/
def needsReload (s : ServerState) (model ckpt_file : String) : Bool :=
  s.f5tts_instance.isNone
    || decide (s.current_model ≠ some model)
    || decide (s.current_ckpt_file ≠ some ckpt_file)

/-- Result of `get_f5tts_instance`: the returned value or raised exception,
the globals afterwards, and the constructor invocations performed. -/
structure GetResult where
  result : Except PyExn (Option F5TTS)
  state : ServerState
  constructions : List ConstructorCall

/-- Lines 47-79, `get_f5tts_instance(model, ckpt_file, vocab_file)`: if the
reload guard fires, import the package and run the constructor inside a
`try`; on success assign the new instance and set
`current_model`/`current_ckpt_file` and `model_loaded = True`; on any
exception set `model_loaded = False` and raise `HTTPException(500, ...)`.
Otherwise return the resident `f5tts_instance` unchanged.  An import
failure performs no constructor invocation; a constructor failure is one
invocation that threw. -/
def get_f5tts_instance (s : ServerState) (model ckpt_file vocab_file : String)
    (o : LoadOutcome) : GetResult :=
  if needsReload s model ckpt_file then
    match o with
    | .importFail msg =>
        { result := .error (.http 500 ("模型加载失败: " ++ msg)),
          state := { s with model_loaded := false },
          constructions := [] }
    | .constructFail msg =>
        { result := .error (.http 500 ("模型加载失败: " ++ msg)),
          state := { s with model_loaded := false },
          constructions := [⟨model, ckpt_file, vocab_file⟩] }
    | .success =>
        let inst : F5TTS := ⟨model, ckpt_file, vocab_file⟩
        { result := .ok (some inst),
          state := { f5tts_instance := some inst,
                     current_model := some model,
                     current_ckpt_file := some ckpt_file,
                     model_loaded := true },
          constructions := [⟨model, ckpt_file, vocab_file⟩] }
  else
    { result := .ok s.f5tts_instance, state := s, constructions := [] }

/-- Result of `preload_model`: it swallows every exception (lines 83-89),
so it only yields the new globals and the constructor trace. -/
structure PreloadResult where
  state : ServerState
  constructions : List ConstructorCall

/-- Lines 81-89, `preload_model()`: call `get_f5tts_instance` with the
three default constants inside a `try` whose `except` only prints, so the
function never raises. -/
def preload_model (s : ServerState) (o : LoadOutcome) : PreloadResult :=
  let r := get_f5tts_instance s DEFAULT_MODEL DEFAULT_CKPT_FILE DEFAULT_VOCAB_FILE o
  { state := r.state, constructions := r.constructions }

/-- The JSON body returned by `POST /preload` (lines 133-137). -/
structure PreloadResponse where
  message : String
  model_loaded : Bool
  model : Option String
deriving DecidableEq, Repr

/-- Result of an endpoint handler: the response or raised exception, the
globals afterwards, and the constructor invocations performed. -/
structure EndpointResult (α : Type) where
  result : Except PyExn α
  state : ServerState
  constructions : List ConstructorCall

/-- Lines 128-139, `preload_endpoint()`: call `preload_model()` and return
a JSON body with a fixed success message, the current `model_loaded` flag
and `current_model`.  Since `preload_model` never raises, the handler's
`except` branch (line 138) is dead and the handler always returns
normally. -/
def preload_endpoint (s : ServerState) (o : LoadOutcome) :
    EndpointResult PreloadResponse :=
  let r := preload_model s o
  { result := .ok { message := "模型预加载成功",
                    model_loaded := r.state.model_loaded,
                    model := r.state.current_model },
    state := r.state, constructions := r.constructions }

/-- The JSON body returned by `GET /health` (lines 145-149). -/
structure HealthResponse where
  status : String
  message : String
  model_loaded : Bool
deriving DecidableEq, Repr

/-- Lines 141-149, `health_check()`: status `healthy` when `model_loaded`
else `degraded`; the globals are only read, never written, so the state
component of the result is the input state. -/
def health_check (s : ServerState) : HealthResponse × ServerState :=
  ({ status := if s.model_loaded then "healthy" else "degraded",
     message := if s.model_loaded then "F5-TTS API 服务正常运行"
                else "服务运行中，但模型未加载",
     model_loaded := s.model_loaded }, s)

/-- Python `x or default` on an optional string: `None` and the empty
string are falsy and select the default. -/
def pyStrOr (x : Option String) (default : String) : String :=
  match x with
  | none => default
  | some v => if v = "" then default else v

/-- The model block of the `GET /`JSON body (lines 114-119). -/
structure RootModelInfo where
  name : String
  path : String
  loaded : Bool
  status : String
deriving DecidableEq, Repr

/-- Lines 106-126, `root()`: reports `current_model or DEFAULT_MODEL`,
`current_ckpt_file or DEFAULT_CKPT_FILE`, the loaded flag and a status
string; no global is written. -/
def root (s : ServerState) : RootModelInfo × ServerState :=
  ({ name := pyStrOr s.current_model DEFAULT_MODEL,
     path := pyStrOr s.current_ckpt_file DEFAULT_CKPT_FILE,
     loaded := s.model_loaded,
     status := if s.model_loaded then "已加载" else "未加载" }, s)

/-- One entry of the `GET /models` list (lines 157-164). -/
structure ModelDescriptor where
  name : String
  description : String
  ckpt_path : String
  vocab_path : String
  status : String
  is_default : Bool
deriving DecidableEq, Repr

/-- Lines 151-166, `get_models()`: a static one-entry list whose status
field reads the globals; no global is written. -/
def get_models (s : ServerState) : List ModelDescriptor × ServerState :=
  ([{ name := "F5TTS_v1_Base",
      description := "F5-TTS v1 Base模型",
      ckpt_path := DEFAULT_CKPT_FILE,
      vocab_path := DEFAULT_VOCAB_FILE,
      status := if s.model_loaded && decide (s.current_model = some "F5TTS_v1_Base")
                then "已加载" else "可用",
      is_default := true }], s)

/-- Python `s.startswith(pre)`, written on the character lists so that it
evaluates by structural recursion. -/
def pyStartsWith (s pre : String) : Bool :=
  pre.data.isPrefixOf s.data

/-- The process-local filesystem visible to the handler, as the list of
existing paths. -/
def addPath (p : String) (fs : List String) : List String :=
  if p ∈ fs then fs else p :: fs

/-- `os.unlink(p)` preceded by the `os.path.exists` guard of line 221:
after it, `p` does not exist. -/
def unlinkPath (p : String) (fs : List String) : List String :=
  fs.filter (fun q => q ≠ p)

/-- The `FileResponse(path, media_type, filename)` returned on success
(lines 213-217). -/
structure FileResp where
  path : String
  media_type : String
  filename : String
deriving DecidableEq, Repr

/-- Result of `simple_tts`: response or raised exception, the globals, the
filesystem, and the constructor invocations performed. -/
structure TTSResult where
  result : Except PyExn FileResp
  state : ServerState
  fs : List String
  constructions : List ConstructorCall

/-- Lines 168-226, `simple_tts(ref_audio, ref_text, gen_text, model)`.
Everything runs inside `try ... except Exception as e: raise
HTTPException(500, "推理失败: " + str(e))`, so every exception raised in
the body — including the `HTTPException(400, ...)` of the content-type
check on line 181 and the `HTTPException(500, ...)` re-raised by
`get_f5tts_instance` — is converted to a 500 whose detail wraps `str(e)`.
The body: reject a content type not starting with `audio/`; if
`not model_loaded or f5tts_instance is None`, call `get_f5tts_instance`
with the caller's `model` but the hardcoded `DEFAULT_CKPT_FILE` and
`DEFAULT_VOCAB_FILE`; write the upload to a fresh temporary file
`refPath`; then inside `try ... finally: unlink(refPath)`, create the
output temporary `outPath`, call `f5tts_instance.infer(...)` (outcome
given by `inferFailure`: `none` succeeds, `some msg` throws `msg`), and
return a `FileResponse` for `outPath`.  The `finally` removes `refPath`
on both the return path and the exception path; `outPath` is never
removed. -/
def simple_tts (s : ServerState) (fs : List String)
    (content_type ref_text gen_text model : String)
    (o : LoadOutcome) (inferFailure : Option String)
    (refPath outPath : String) : TTSResult :=
  if ¬ pyStartsWith content_type "audio/" then
    { result := .error (.http 500
        ("推理失败: " ++ strOfExn (.http 400 "上传的文件不是音频格式"))),
      state := s, fs := fs, constructions := [] }
  else
    let loadStep : Except PyExn Unit × ServerState × List ConstructorCall :=
      if s.model_loaded = false ∨ s.f5tts_instance = none then
        let r := get_f5tts_instance s model DEFAULT_CKPT_FILE DEFAULT_VOCAB_FILE o
        (r.result.map (fun _ => ()), r.state, r.constructions)
      else (.ok (), s, [])
    match loadStep with
    | (.error e, s1, cs) =>
        { result := .error (.http 500 ("推理失败: " ++ strOfExn e)),
          state := s1, fs := fs, constructions := cs }
    | (.ok _, s1, cs) =>
        let fs1 := addPath refPath fs
        let fs2 := addPath outPath fs1
        let inferRes : Except PyExn FileResp :=
          match s1.f5tts_instance with
          | none => .error (.other "AttributeError: NoneType object has no attribute infer")
          | some _ =>
            match inferFailure with
            | none => .ok { path := outPath, media_type := "audio/wav",
                            filename := "generated_audio.wav" }
            | some msg => .error (.other msg)
        let fs3 := unlinkPath refPath fs2
        match inferRes with
        | .ok resp => { result := .ok resp, state := s1, fs := fs3, constructions := cs }
        | .error e =>
            { result := .error (.http 500 ("推理失败: " ++ strOfExn e)),
              state := s1, fs := fs3, constructions := cs }

/-!
Embedding of the standalone diagnostic script `test_model_load.py`.
-/

/-- Line 12: `MODEL_PATH = "models/F5-TTS/F5TTS_v1_Base"`. -/
def MODEL_PATH : String := "models/F5-TTS/F5TTS_v1_Base"

/-- Line 13: `MODEL_FILE = os.path.join(MODEL_PATH, "model_1250000.safetensors")`. -/
def MODEL_FILE : String := MODEL_PATH ++ "/model_1250000.safetensors"

/-- Line 14: `VOCAB_FILE = os.path.join(MODEL_PATH, "vocab.txt")`. -/
def VOCAB_FILE : String := MODEL_PATH ++ "/vocab.txt"

/-- What the script can observe of the filesystem: whether `MODEL_FILE`
exists and its size in bytes, and whether `VOCAB_FILE` exists and its
lines. -/
structure DiagFS where
  modelFileSize : Option Nat
  vocabFileLines : Option (List String)
deriving DecidableEq, Repr

/-- The console reports of `check_files()`.  `fileSizeBytes n` stands for
the line printing `n / (1024**3)` GB; `vocabLineCount n` for the line
printing the number of vocabulary lines. -/
inductive DiagMsg where
  | fileExists (path : String)
  | fileMissing (path : String)
  | fileSizeBytes (bytes : Nat)
  | vocabLineCount (n : Nat)
deriving DecidableEq, Repr

/-- Lines 16-37, `check_files()`, restricted to runs in which every read
on an existing path succeeds: if `MODEL_FILE` is missing, report and
return `False`; else report its size; then if `VOCAB_FILE` is missing,
report and return `False`; else report its line count and return `True`.
This is not the whole story: the source has no `try/except`, and
`os.path.getsize`, `open` and `readlines` can raise even on an existing
path; `check_files_fallible` below makes that raise path explicit, and
`check_files_fallible_agrees` shows this function is its restriction to
worlds without failing reads.  `diag_main` consumes this boolean-level
version, whose claim does not depend on the raise path. -/
def check_files (fs : DiagFS) : Bool × List DiagMsg :=
  match fs.modelFileSize with
  | none => (false, [.fileMissing MODEL_FILE])
  | some size =>
    match fs.vocabFileLines with
    | none => (false, [.fileExists MODEL_FILE, .fileSizeBytes size,
                       .fileMissing VOCAB_FILE])
    | some lines =>
      (true, [.fileExists MODEL_FILE, .fileSizeBytes size,
              .fileExists VOCAB_FILE, .vocabLineCount lines.length])

/-- What one of the script's files can look like to the running script: it
is absent (`os.path.exists` is false); or it exists and reading it yields
a value (the byte size for `os.path.getsize`, the line list for
`open`/`readlines`); or it exists but the read raises — a directory at
the path, a permission error, a vocabulary file that is not valid UTF-8,
or the file vanishing between the existence check and the read. -/
inductive FileStat (α : Type) where
  | absent
  | readable (val : α)
  | readFails (msg : String)
deriving DecidableEq, Repr

/-- The filesystem as `check_files` can actually encounter it: the
checkpoint file and the vocabulary file, each with their read outcome. -/
structure DiagWorld where
  modelFile : FileStat Nat
  vocabFile : FileStat (List String)
deriving DecidableEq, Repr

/-- Lines 16-37, `check_files()`, with the raise path explicit.  The
function body runs with no enclosing `try/except`: after the
`os.path.exists(MODEL_FILE)` check, `os.path.getsize(MODEL_FILE)`
(line 21) runs unguarded, and after the `os.path.exists(VOCAB_FILE)`
check, `open(VOCAB_FILE, "r", encoding="utf-8")` and `f.readlines()`
(lines 29-30) run unguarded; an exception raised by any of these — for
example `UnicodeDecodeError` on a vocabulary file that is not valid
UTF-8 — propagates out of `check_files` to the caller.  A `readFails`
file is one whose unguarded read raises. -/
def check_files_fallible (w : DiagWorld) : Except PyExn (Bool × List DiagMsg) :=
  match w.modelFile with
  | .absent => .ok (false, [.fileMissing MODEL_FILE])
  | .readFails msg => .error (.other msg)
  | .readable size =>
    match w.vocabFile with
    | .absent => .ok (false, [.fileExists MODEL_FILE, .fileSizeBytes size,
                              .fileMissing VOCAB_FILE])
    | .readFails msg => .error (.other msg)
    | .readable lines =>
      .ok (true, [.fileExists MODEL_FILE, .fileSizeBytes size,
                  .fileExists VOCAB_FILE, .vocabLineCount lines.length])

/-- The boolean-level view of a world: a file counts as present exactly
when it exists and its read succeeds. -/
def diagFSOfWorld (w : DiagWorld) : DiagFS :=
  { modelFileSize :=
      match w.modelFile with
      | .readable size => some size
      | _ => none,
    vocabFileLines :=
      match w.vocabFile with
      | .readable lines => some lines
      | _ => none }

/-- The environment the diagnostic script runs in: the filesystem, whether
`import f5_tts` succeeds, whether `import torch` succeeds, and the keys
`safe_open(MODEL_FILE)` yields (`none` when opening throws). -/
structure DiagEnv where
  fs : DiagFS
  importOk : Bool
  torchOk : Bool
  cudaAvailable : Bool
  safeOpenKeys : Option (List String)
deriving DecidableEq, Repr

/-- Tags naming the three checks, used to record which checks `main()`
executed and in what order. -/
inductive CheckTag where
  | checkFiles
  | testImport
  | testModelLoad
deriving DecidableEq, Repr

/-- Lines 39-60, `test_import()`: returns `True` exactly when importing the
`f5_tts` package succeeds; an `ImportError` is caught and reported as
`False`.  The second component records that the check executed. -/
def test_import (env : DiagEnv) : Bool × List CheckTag :=
  (env.importOk, [.testImport])

/-- Lines 62-89, `test_model_load()`: inside one `try`, import `torch`
(may throw), inspect CUDA availability (affects only printing), and open
`MODEL_FILE` with `safe_open` to list its keys (may throw); any exception
is caught and reported as `False`.  The second component records that the
check executed. -/
def test_model_load (env : DiagEnv) : Bool × List CheckTag :=
  (env.torchOk && env.safeOpenKeys.isSome, [.testModelLoad])

/-- The observable outcome of `main()`: the checks executed in order, the
final accumulated flag, and the summary line chosen by the final `if`. -/
structure MainResult where
  ran : List CheckTag
  all_passed : Bool
  summary : String
deriving DecidableEq, Repr

/-- The success summary printed on line 108. -/
def PASS_SUMMARY : String := "✓ 所有测试通过！F5-TTS调试环境配置成功。"

/-- The failure summary printed on line 114. -/
def FAIL_SUMMARY : String := "✗ 部分测试失败，请检查配置。"

/-- Lines 91-114, `main()`: starts with `all_passed = True`, then runs
`all_passed &= check_files()`, `all_passed &= test_import()`,
`all_passed &= test_model_load()`.  Python `&=` evaluates its right-hand
side unconditionally, so each check runs regardless of earlier results;
the embedding mirrors this by applying all three check functions and
concatenating their execution records.  Finally the summary is the pass
line when `all_passed` is true, otherwise the fail line.  (Named
`diag_main` because Lean reserves the name `main` for IO entry points.) -/
def diag_main (env : DiagEnv) : MainResult :=
  let r1 := check_files env.fs
  let a1 := true && r1.1
  let r2 := test_import env
  let a2 := a1 && r2.1
  let r3 := test_model_load env
  let a3 := a2 && r3.1
  { ran := CheckTag.checkFiles :: (r2.2 ++ r3.2),
    all_passed := a3,
    summary := if a3 then PASS_SUMMARY else FAIL_SUMMARY }

/-- The implicit invariant tying the two globals together: whenever
`model_loaded` is `True`, `f5tts_instance` is not `None`. -/
def ModelLoadedInv (s : ServerState) : Prop :=
  s.model_loaded = true → s.f5tts_instance ≠ none

/-!
Helper lemmas shared by the claim theorems.
-/

theorem not_mem_unlinkPath (p : String) (l : List String) :
    p ∉ unlinkPath p l := by
  simp [unlinkPath, List.mem_filter]

theorem get_constructions_args (s : ServerState) (m c v : String)
    (o : LoadOutcome) :
    ∀ call ∈ (get_f5tts_instance s m c v o).constructions,
      call = ⟨m, c, v⟩ := by
  unfold get_f5tts_instance
  split
  · cases o <;> simp
  · simp

theorem inv_get (s : ServerState) (m c v : String) (o : LoadOutcome)
    (h : ModelLoadedInv s) :
    ModelLoadedInv (get_f5tts_instance s m c v o).state := by
  unfold get_f5tts_instance
  split
  · cases o <;> simp [ModelLoadedInv]
  · exact h

/-!
Claim theorems.
-/

/-- Claim C1 (code-bug evaluation): evaluating `simple_tts` at a request
whose uploaded file has declared content type `text/plain` shows that no
model construction is attempted and the state is untouched, but the
response raised to the client is `HTTPException` with status 500, not
400: the `HTTPException(400, "上传的文件不是音频格式")` raised by the
content-type check on line 181 is an `Exception`, so the handler's own
`except Exception` on line 224 catches it and re-raises it as
`HTTPException(500, "推理失败: " + str(e))`. -/
theorem simple_tts_text_plain_gives_500 :
    (simple_tts initialState [] "text/plain" "hello" "world" DEFAULT_MODEL
        LoadOutcome.success none "/tmp/ref0.wav" "/tmp/out0.wav").result
      = Except.error (PyExn.http 500 "推理失败: 400: 上传的文件不是音频格式") ∧
    (simple_tts initialState [] "text/plain" "hello" "world" DEFAULT_MODEL
        LoadOutcome.success none "/tmp/ref0.wav" "/tmp/out0.wav").constructions = [] ∧
    (simple_tts initialState [] "text/plain" "hello" "world" DEFAULT_MODEL
        LoadOutcome.success none "/tmp/ref0.wav" "/tmp/out0.wav").state = initialState :=
  ⟨rfl, rfl, rfl⟩

/-- Claim C2: for every `/tts-simple` request, on every exit path of the
handler — content-type rejection, load failure, inference success or
inference exception — the reference temporary file `refPath` does not
exist when the handler returns, provided it did not exist before the call
(temporary names are fresh).  In particular, once the reference file has
been written, the `finally` of lines 219-222 removes it both on the
return path and on the exception path. -/
theorem simple_tts_ref_temp_file_deleted
    (s : ServerState) (fs : List String) (ct rt gt m : String)
    (o : LoadOutcome) (inf : Option String) (refPath outPath : String)
    (hfresh : refPath ∉ fs) :
    refPath ∉ (simple_tts s fs ct rt gt m o inf refPath outPath).fs := by
  unfold simple_tts
  split
  · exact hfresh
  split
  · cases hres : (get_f5tts_instance s m DEFAULT_CKPT_FILE DEFAULT_VOCAB_FILE o).result with
    | error e =>
        simp only [hres, Except.map]
        exact hfresh
    | ok v =>
        simp only [hres, Except.map]
        split
        · exact not_mem_unlinkPath refPath _
        · exact not_mem_unlinkPath refPath _
  · cases hfi : s.f5tts_instance with
    | none => simp only [hfi]; exact not_mem_unlinkPath refPath _
    | some i =>
        cases inf with
        | none => simp only [hfi]; exact not_mem_unlinkPath refPath _
        | some msg => simp only [hfi]; exact not_mem_unlinkPath refPath _

/-- Witness for C2 at a concrete request: the reference temporary path is
absent from the final filesystem of a successful synthesis call started on
an empty filesystem. -/
theorem simple_tts_ref_temp_file_deleted_witness :
    "/tmp/ref1.wav" ∉ (simple_tts initialState [] "audio/wav" "hello" "world"
        DEFAULT_MODEL LoadOutcome.success none "/tmp/ref1.wav" "/tmp/out1.wav").fs :=
  simple_tts_ref_temp_file_deleted initialState [] "audio/wav" "hello" "world"
    DEFAULT_MODEL LoadOutcome.success none "/tmp/ref1.wav" "/tmp/out1.wav"
    (by decide)

/-- Claim C3: calling `POST /preload` twice in succession from the initial
state with the (default) arguments, the first call succeeding, performs
exactly one constructor invocation in the first call and none in the
second: the second call finds `current_model` and `current_ckpt_file`
equal to the request's defaults, so the reload guard does not fire and the
state is returned unchanged, whatever the environment would have done on a
second construction. -/
theorem preload_twice_constructs_once (o2 : LoadOutcome) :
    (preload_endpoint initialState LoadOutcome.success).constructions
      = [⟨DEFAULT_MODEL, DEFAULT_CKPT_FILE, DEFAULT_VOCAB_FILE⟩] ∧
    (preload_endpoint initialState LoadOutcome.success).state.current_model
      = some DEFAULT_MODEL ∧
    (preload_endpoint initialState LoadOutcome.success).state.current_ckpt_file
      = some DEFAULT_CKPT_FILE ∧
    (preload_endpoint (preload_endpoint initialState LoadOutcome.success).state
        o2).constructions = [] ∧
    (preload_endpoint (preload_endpoint initialState LoadOutcome.success).state
        o2).state
      = (preload_endpoint initialState LoadOutcome.success).state :=
  ⟨rfl, rfl, rfl, rfl, rfl⟩

/-- Witness for C3: with a second-call environment that would fail any
construction, the second `/preload` still performs no constructor
invocation. -/
theorem preload_twice_constructs_once_witness :
    (preload_endpoint (preload_endpoint initialState LoadOutcome.success).state
        (LoadOutcome.constructFail "boom")).constructions = [] :=
  (preload_twice_constructs_once (LoadOutcome.constructFail "boom")).2.2.2.1

/-- Counterexample for Claim C4: the transition system of the load state
is not limited to the three listed transitions.  Concretely, after a
successful load of model `F5TTS_v1_Base` (state loaded,
`model_loaded = True`), a call requesting a different model whose
construction throws moves the state to load-failed
(`model_loaded = False`): a loaded→load-failed transition. -/
theorem loaded_to_load_failed_transition :
    (get_f5tts_instance initialState "F5TTS_v1_Base" "ckptA" "vocabA"
        LoadOutcome.success).state.model_loaded = true ∧
    (get_f5tts_instance
        (get_f5tts_instance initialState "F5TTS_v1_Base" "ckptA" "vocabA"
          LoadOutcome.success).state
        "OtherModel" "ckptB" "vocabB" (LoadOutcome.constructFail "boom")).result
      = Except.error (PyExn.http 500 "模型加载失败: boom") ∧
    (get_f5tts_instance
        (get_f5tts_instance initialState "F5TTS_v1_Base" "ckptA" "vocabA"
          LoadOutcome.success).state
        "OtherModel" "ckptB" "vocabB" (LoadOutcome.constructFail "boom")).state.model_loaded
      = false :=
  ⟨rfl, rfl, rfl⟩

/-- Claim C4 as amended: if construction throws inside
`get_f5tts_instance`, the operation fails with `HTTPException(500, ...)`
and `model_loaded` is left `False`, and the reload guard still fires for
the same `(model, ckpt_file)` arguments afterwards, so a subsequent call
with the same arguments attempts construction again; on success the state
becomes loaded with the newly constructed instance; when the guard does
not fire nothing changes.  Hence the transitions of the load state are
unloaded→loaded on success, unloaded→load-failed on exception,
load-failed→loaded on successful retry, and additionally
loaded→load-failed when a construction attempted for a different
`(model, ckpt_file)` pair throws (plus identity self-loops). -/
theorem get_f5tts_instance_load_transitions
    (s : ServerState) (m c v : String) (o : LoadOutcome) :
    (needsReload s m c = true → o ≠ LoadOutcome.success →
        (∃ d, (get_f5tts_instance s m c v o).result
            = Except.error (PyExn.http 500 d)) ∧
        (get_f5tts_instance s m c v o).state.model_loaded = false ∧
        needsReload (get_f5tts_instance s m c v o).state m c = true) ∧
    (needsReload s m c = true → o = LoadOutcome.success →
        (get_f5tts_instance s m c v o).state.model_loaded = true ∧
        (get_f5tts_instance s m c v o).state.f5tts_instance = some ⟨m, c, v⟩) ∧
    (needsReload s m c = false →
        (get_f5tts_instance s m c v o).state = s ∧
        (get_f5tts_instance s m c v o).constructions = []) := by
  refine ⟨fun hg ho => ?_, fun hg ho => ?_, fun hg => ?_⟩
  · unfold get_f5tts_instance
    rw [hg]
    cases o with
    | success => exact absurd rfl ho
    | importFail msg => exact ⟨⟨_, rfl⟩, rfl, by simpa [needsReload] using hg⟩
    | constructFail msg => exact ⟨⟨_, rfl⟩, rfl, by simpa [needsReload] using hg⟩
  · subst ho
    unfold get_f5tts_instance
    rw [hg]
    exact ⟨rfl, rfl⟩
  · unfold get_f5tts_instance
    rw [hg]
    exact ⟨rfl, rfl⟩

/-- Witness for the amended C4 at concrete inputs: from the initial state
a failing construction yields a 500 error, a cleared loaded flag and a
still-firing reload guard; a successful retry with the same arguments then
loads the requested instance. -/
theorem get_f5tts_instance_load_transitions_witness :
    ((∃ d, (get_f5tts_instance initialState "F5TTS_v1_Base" "ckptA" "vocabA"
          (LoadOutcome.constructFail "x")).result
        = Except.error (PyExn.http 500 d)) ∧
      (get_f5tts_instance initialState "F5TTS_v1_Base" "ckptA" "vocabA"
          (LoadOutcome.constructFail "x")).state.model_loaded = false ∧
      needsReload (get_f5tts_instance initialState "F5TTS_v1_Base" "ckptA"
          "vocabA" (LoadOutcome.constructFail "x")).state "F5TTS_v1_Base" "ckptA"
        = true) ∧
    (get_f5tts_instance initialState "F5TTS_v1_Base" "ckptA" "vocabA"
        LoadOutcome.success).state.model_loaded = true :=
  ⟨(get_f5tts_instance_load_transitions initialState "F5TTS_v1_Base" "ckptA"
      "vocabA" (LoadOutcome.constructFail "x")).1 (by decide) (by decide),
   ((get_f5tts_instance_load_transitions initialState "F5TTS_v1_Base" "ckptA"
      "vocabA" LoadOutcome.success).2.1 (by decide) rfl).1⟩

/-- Claim C5: `POST /preload` always returns a normal response — never a
raised exception, because `preload_model` swallows every load failure —
whose `model_loaded` field is exactly the resulting loaded flag; when a
load is attempted, that flag reports success (`True` on a successful
construction, `False` on a failed one), so a load failure during preload
is reported and non-fatal to the service. -/
theorem preload_endpoint_reports_and_is_nonfatal
    (s : ServerState) (o : LoadOutcome) :
    (∃ resp, (preload_endpoint s o).result = Except.ok resp ∧
        resp.model_loaded = (preload_endpoint s o).state.model_loaded) ∧
    (needsReload s DEFAULT_MODEL DEFAULT_CKPT_FILE = true →
        ((o = LoadOutcome.success →
            (preload_endpoint s o).state.model_loaded = true) ∧
         (o ≠ LoadOutcome.success →
            (preload_endpoint s o).state.model_loaded = false))) := by
  constructor
  · exact ⟨_, rfl, rfl⟩
  · intro hg
    constructor
    · intro ho
      subst ho
      unfold preload_endpoint preload_model get_f5tts_instance
      rw [hg]
      rfl
    · intro ho
      unfold preload_endpoint preload_model get_f5tts_instance
      rw [hg]
      cases o with
      | success => exact absurd rfl ho
      | importFail msg => rfl
      | constructFail msg => rfl

/-- Witness for C5 at concrete inputs: from the initial state, a failed
preload still returns a normal response and reports `model_loaded =
False`, and a successful preload reports `model_loaded = True`. -/
theorem preload_endpoint_reports_and_is_nonfatal_witness :
    (∃ resp, (preload_endpoint initialState (LoadOutcome.constructFail "x")).result
        = Except.ok resp ∧
      resp.model_loaded
        = (preload_endpoint initialState
            (LoadOutcome.constructFail "x")).state.model_loaded) ∧
    (preload_endpoint initialState (LoadOutcome.constructFail "x")).state.model_loaded
      = false ∧
    (preload_endpoint initialState LoadOutcome.success).state.model_loaded = true :=
  ⟨(preload_endpoint_reports_and_is_nonfatal initialState
      (LoadOutcome.constructFail "x")).1,
   ((preload_endpoint_reports_and_is_nonfatal initialState
      (LoadOutcome.constructFail "x")).2 (by decide)).2 (by decide),
   ((preload_endpoint_reports_and_is_nonfatal initialState
      LoadOutcome.success).2 (by decide)).1 rfl⟩

/-- Claim C6: `GET /health` reports `degraded` in the initial state,
reports `healthy` in every state whose `model_loaded` flag is `True` — in
particular after a successful `POST /preload` — and returns the state it
was given, modifying nothing. -/
theorem health_check_status_correct (s : ServerState) :
    (health_check initialState).1.status = "degraded" ∧
    (s.model_loaded = true → (health_check s).1.status = "healthy") ∧
    (health_check s).2 = s ∧
    (health_check
        (preload_endpoint initialState LoadOutcome.success).state).1.status
      = "healthy" := by
  refine ⟨rfl, fun h => ?_, rfl, rfl⟩
  simp [health_check, h]

/-- Witness for C6: the state reached by a successful preload has the
loaded flag set, and `health_check` on it reports `healthy`. -/
theorem health_check_status_correct_witness :
    (health_check
        (preload_model initialState LoadOutcome.success).state).1.status
      = "healthy" :=
  (health_check_status_correct
      (preload_model initialState LoadOutcome.success).state).2.1 rfl

/-- Claim C7: every constructor invocation performed by a `/tts-simple`
request — for any state, request fields and environment, in particular for
any caller-supplied `model` identifier — passes the hardcoded
`DEFAULT_CKPT_FILE` and `DEFAULT_VOCAB_FILE` as checkpoint and vocabulary
paths (line 186). -/
theorem simple_tts_constructs_with_default_paths
    (s : ServerState) (fs : List String) (ct rt gt m : String)
    (o : LoadOutcome) (inf : Option String) (refPath outPath : String) :
    ∀ call ∈ (simple_tts s fs ct rt gt m o inf refPath outPath).constructions,
      call.ckpt_file = DEFAULT_CKPT_FILE ∧ call.vocab_file = DEFAULT_VOCAB_FILE := by
  intro call hcall
  have hargs : call = ⟨m, DEFAULT_CKPT_FILE, DEFAULT_VOCAB_FILE⟩ := by
    revert hcall
    unfold simple_tts
    split
    · intro hcall
      exact absurd hcall (List.not_mem_nil call)
    split
    · cases hres : (get_f5tts_instance s m DEFAULT_CKPT_FILE DEFAULT_VOCAB_FILE o).result with
      | error e =>
          simp only [hres, Except.map]
          intro hcall
          exact get_constructions_args s m DEFAULT_CKPT_FILE DEFAULT_VOCAB_FILE o call hcall
      | ok v =>
          simp only [hres, Except.map]
          split
          · intro hcall
            exact get_constructions_args s m DEFAULT_CKPT_FILE DEFAULT_VOCAB_FILE o call hcall
          · intro hcall
            exact get_constructions_args s m DEFAULT_CKPT_FILE DEFAULT_VOCAB_FILE o call hcall
    · cases hfi : s.f5tts_instance with
      | none =>
          simp only [hfi]
          intro hcall
          exact absurd hcall (List.not_mem_nil call)
      | some i =>
          cases inf with
          | none =>
              simp only [hfi]
              intro hcall
              exact absurd hcall (List.not_mem_nil call)
          | some msg =>
              simp only [hfi]
              intro hcall
              exact absurd hcall (List.not_mem_nil call)
  rw [hargs]
  exact ⟨rfl, rfl⟩

/-- Witness for C7: a concrete `/tts-simple` request with a non-default
model identifier that triggers a load constructs with the default
checkpoint and vocabulary paths. -/
theorem simple_tts_constructs_with_default_paths_witness :
    (⟨"SomeOtherModel", DEFAULT_CKPT_FILE, DEFAULT_VOCAB_FILE⟩ : ConstructorCall)
      ∈ (simple_tts initialState [] "audio/wav" "hello" "world" "SomeOtherModel"
          LoadOutcome.success none "/tmp/ref2.wav" "/tmp/out2.wav").constructions ∧
    (⟨"SomeOtherModel", DEFAULT_CKPT_FILE, DEFAULT_VOCAB_FILE⟩ : ConstructorCall).ckpt_file
      = DEFAULT_CKPT_FILE ∧
    (⟨"SomeOtherModel", DEFAULT_CKPT_FILE, DEFAULT_VOCAB_FILE⟩ : ConstructorCall).vocab_file
      = DEFAULT_VOCAB_FILE :=
  have hmem : (⟨"SomeOtherModel", DEFAULT_CKPT_FILE, DEFAULT_VOCAB_FILE⟩ : ConstructorCall)
      ∈ (simple_tts initialState [] "audio/wav" "hello" "world" "SomeOtherModel"
          LoadOutcome.success none "/tmp/ref2.wav" "/tmp/out2.wav").constructions := by
    decide
  ⟨hmem,
   simple_tts_constructs_with_default_paths initialState [] "audio/wav" "hello"
     "world" "SomeOtherModel" LoadOutcome.success none "/tmp/ref2.wav"
     "/tmp/out2.wav" _ hmem⟩

/-- Consistency of the two granularities: on a world in which no read on
an existing file fails, the fallible embedding of `check_files` returns
normally with exactly the result of the boolean-level `check_files` that
`diag_main` consumes. -/
theorem check_files_fallible_agrees (w : DiagWorld)
    (hm : ∀ msg, w.modelFile ≠ FileStat.readFails msg)
    (hv : ∀ msg, w.vocabFile ≠ FileStat.readFails msg) :
    check_files_fallible w = Except.ok (check_files (diagFSOfWorld w)) := by
  obtain ⟨mf, vf⟩ := w
  cases mf <;> cases vf <;>
    first
      | rfl
      | exact absurd rfl (hm _)
      | exact absurd rfl (hv _)

/-- Counterexample for Claim C8: `check_files()` can raise.  On a
filesystem where the checkpoint file exists and is readable (1234 bytes)
and the vocabulary file exists but is not valid UTF-8, the unguarded
`open(VOCAB_FILE, "r", encoding="utf-8")`/`readlines()` of lines 29-30
raises `UnicodeDecodeError`, and with no `try/except` in `check_files`
the exception propagates to the caller instead of a `False` return. -/
theorem check_files_raises_on_undecodable_vocab :
    check_files_fallible
        ⟨FileStat.readable 1234,
         FileStat.readFails "UnicodeDecodeError: utf-8 codec cannot decode byte 0xff"⟩
      = Except.error
          (PyExn.other "UnicodeDecodeError: utf-8 codec cannot decode byte 0xff") :=
  rfl

/-- Claim C8 as amended: `check_files()` returns `False` whenever either
the checkpoint file or the vocabulary file is absent at its fixed
relative path, returns `True` — with the checkpoint size in bytes
(printed divided by `1024³` as GiB) and the vocabulary line count
reported — whenever both exist and the reads on them succeed, and raises
only when an unguarded read on an existing file raises, in which case
that exception propagates out of the function. -/
theorem check_files_fallible_correct (w : DiagWorld) :
    (w.modelFile = FileStat.absent →
        check_files_fallible w
          = Except.ok (false, [DiagMsg.fileMissing MODEL_FILE])) ∧
    (∀ size, w.modelFile = FileStat.readable size →
        w.vocabFile = FileStat.absent →
        check_files_fallible w
          = Except.ok (false, [DiagMsg.fileExists MODEL_FILE,
                               DiagMsg.fileSizeBytes size,
                               DiagMsg.fileMissing VOCAB_FILE])) ∧
    (∀ size lines, w.modelFile = FileStat.readable size →
        w.vocabFile = FileStat.readable lines →
        check_files_fallible w
          = Except.ok (true, [DiagMsg.fileExists MODEL_FILE,
                              DiagMsg.fileSizeBytes size,
                              DiagMsg.fileExists VOCAB_FILE,
                              DiagMsg.vocabLineCount lines.length])) ∧
    (∀ e, check_files_fallible w = Except.error e →
        (∃ msg, w.modelFile = FileStat.readFails msg ∧ e = PyExn.other msg) ∨
        (∃ msg, w.vocabFile = FileStat.readFails msg ∧ e = PyExn.other msg)) := by
  obtain ⟨mf, vf⟩ := w
  refine ⟨?_, ?_, ?_, ?_⟩ <;>
    cases mf <;> cases vf <;> simp [check_files_fallible]

/-- Witness for the amended C8 at concrete worlds: both files readable
yields `True` with the size and line-count reports; a missing checkpoint
yields `False`; and an error return comes from a failing read on an
existing file. -/
theorem check_files_fallible_correct_witness :
    check_files_fallible ⟨FileStat.readable 1234, FileStat.readable ["a", "b"]⟩
      = Except.ok (true, [DiagMsg.fileExists MODEL_FILE,
                          DiagMsg.fileSizeBytes 1234,
                          DiagMsg.fileExists VOCAB_FILE,
                          DiagMsg.vocabLineCount 2]) ∧
    check_files_fallible ⟨FileStat.absent, FileStat.readable ["a"]⟩
      = Except.ok (false, [DiagMsg.fileMissing MODEL_FILE]) ∧
    ((∃ msg, (⟨FileStat.readable 9, FileStat.readFails "PermissionError"⟩ :
            DiagWorld).modelFile = FileStat.readFails msg ∧
        PyExn.other "PermissionError" = PyExn.other msg) ∨
     (∃ msg, (⟨FileStat.readable 9, FileStat.readFails "PermissionError"⟩ :
            DiagWorld).vocabFile = FileStat.readFails msg ∧
        PyExn.other "PermissionError" = PyExn.other msg)) :=
  ⟨(check_files_fallible_correct
      ⟨FileStat.readable 1234, FileStat.readable ["a", "b"]⟩).2.2.1
      1234 ["a", "b"] rfl rfl,
   (check_files_fallible_correct
      ⟨FileStat.absent, FileStat.readable ["a"]⟩).1 rfl,
   (check_files_fallible_correct
      ⟨FileStat.readable 9, FileStat.readFails "PermissionError"⟩).2.2.2
      (PyExn.other "PermissionError") rfl⟩

/-- Claim C9: `main()` of the diagnostic script executes all three checks
— `check_files`, `test_import`, `test_model_load`, in that order — in
every environment, including those where an earlier check returns `False`
(the `&=` accumulation evaluates its right-hand side unconditionally);
its accumulated flag is the conjunction of the three results, and the
pass summary is printed exactly when all three returned `True`. -/
theorem diag_main_runs_all_checks (env : DiagEnv) :
    (diag_main env).ran
      = [CheckTag.checkFiles, CheckTag.testImport, CheckTag.testModelLoad] ∧
    (diag_main env).all_passed
      = ((check_files env.fs).1 && (test_import env).1 && (test_model_load env).1) ∧
    ((diag_main env).summary = PASS_SUMMARY ↔
      (check_files env.fs).1 = true ∧ (test_import env).1 = true ∧
        (test_model_load env).1 = true) := by
  refine ⟨rfl, by simp [diag_main, Bool.and_assoc], ?_⟩
  cases h1 : (check_files env.fs).1 <;>
    cases h2 : (test_import env).1 <;>
      cases h3 : (test_model_load env).1 <;>
        simp [diag_main, h1, h2, h3, PASS_SUMMARY, FAIL_SUMMARY]

/-- Witness for C9: in an environment where the files are missing but the
imports would succeed, all three checks still run, the accumulated flag is
`False` and the fail summary is chosen. -/
theorem diag_main_runs_all_checks_witness :
    (diag_main ⟨⟨none, none⟩, true, true, false, some []⟩).ran
      = [CheckTag.checkFiles, CheckTag.testImport, CheckTag.testModelLoad] ∧
    ¬ ((diag_main ⟨⟨none, none⟩, true, true, false, some []⟩).summary
        = PASS_SUMMARY) :=
  ⟨(diag_main_runs_all_checks ⟨⟨none, none⟩, true, true, false, some []⟩).1,
   fun h =>
     by
       have h2 := ((diag_main_runs_all_checks
         ⟨⟨none, none⟩, true, true, false, some []⟩).2.2.mp h).1
       exact absurd h2 (by decide)⟩

/-- Claim C10: the invariant "if `model_loaded` is `True` then
`f5tts_instance` is not `None`" holds in the initial state and is
preserved by every operation — `get_f5tts_instance`, `preload_model`, the
`/preload` handler, and the `/tts-simple` handler, while `GET /`,
`GET /health` and `GET /models` return the state unchanged — and
`model_loaded` becomes `True` only together with the assignment of a
successfully constructed instance to `f5tts_instance`. -/
theorem model_loaded_implies_instance_invariant :
    ModelLoadedInv initialState ∧
    (∀ s m c v o, ModelLoadedInv s →
        ModelLoadedInv (get_f5tts_instance s m c v o).state) ∧
    (∀ s o, ModelLoadedInv s → ModelLoadedInv (preload_model s o).state) ∧
    (∀ s o, ModelLoadedInv s → ModelLoadedInv (preload_endpoint s o).state) ∧
    (∀ s, (health_check s).2 = s) ∧
    (∀ s, (root s).2 = s) ∧
    (∀ s, (get_models s).2 = s) ∧
    (∀ s fs ct rt gt m o inf refPath outPath, ModelLoadedInv s →
        ModelLoadedInv (simple_tts s fs ct rt gt m o inf refPath outPath).state) ∧
    (∀ s m c v o, (get_f5tts_instance s m c v o).state.model_loaded = true →
        (s.model_loaded = true ∧ (get_f5tts_instance s m c v o).state = s) ∨
        (o = LoadOutcome.success ∧
          (get_f5tts_instance s m c v o).state.f5tts_instance = some ⟨m, c, v⟩)) := by
  refine ⟨?_, inv_get, ?_, ?_, fun s => rfl, fun s => rfl, fun s => rfl, ?_, ?_⟩
  · intro h
    exact absurd h (by decide)
  · intro s o h
    exact inv_get s DEFAULT_MODEL DEFAULT_CKPT_FILE DEFAULT_VOCAB_FILE o h
  · intro s o h
    exact inv_get s DEFAULT_MODEL DEFAULT_CKPT_FILE DEFAULT_VOCAB_FILE o h
  · intro s fs ct rt gt m o inf refPath outPath h
    unfold simple_tts
    split
    · exact h
    split
    · cases hres : (get_f5tts_instance s m DEFAULT_CKPT_FILE DEFAULT_VOCAB_FILE o).result with
      | error e =>
          simp only [hres, Except.map]
          exact inv_get s m DEFAULT_CKPT_FILE DEFAULT_VOCAB_FILE o h
      | ok v =>
          simp only [hres, Except.map]
          split
          · exact inv_get s m DEFAULT_CKPT_FILE DEFAULT_VOCAB_FILE o h
          · exact inv_get s m DEFAULT_CKPT_FILE DEFAULT_VOCAB_FILE o h
    · cases hfi : s.f5tts_instance with
      | none => simp only [hfi]; exact h
      | some i =>
          cases inf with
          | none => simp only [hfi]; exact h
          | some msg => simp only [hfi]; exact h
  · intro s m c v o hloaded
    revert hloaded
    unfold get_f5tts_instance
    split
    · cases o with
      | success => exact fun _ => Or.inr ⟨rfl, rfl⟩
      | importFail msg => exact fun hl => absurd hl (by simp)
      | constructFail msg => exact fun hl => absurd hl (by simp)
    · exact fun hl => Or.inl ⟨hl, rfl⟩

/-- Witness for C10 at concrete inputs: the invariant holds after a
successful load from the initial state, and the flag flip of that load
comes with the assignment of the constructed instance. -/
theorem model_loaded_implies_instance_invariant_witness :
    ModelLoadedInv (get_f5tts_instance initialState "F5TTS_v1_Base" "ckptA"
        "vocabA" LoadOutcome.success).state ∧
    ((initialState.model_loaded = true ∧
        (get_f5tts_instance initialState "F5TTS_v1_Base" "ckptA" "vocabA"
          LoadOutcome.success).state = initialState) ∨
     (LoadOutcome.success = LoadOutcome.success ∧
        (get_f5tts_instance initialState "F5TTS_v1_Base" "ckptA" "vocabA"
          LoadOutcome.success).state.f5tts_instance
          = some ⟨"F5TTS_v1_Base", "ckptA", "vocabA"⟩)) :=
  ⟨model_loaded_implies_instance_invariant.2.1 initialState "F5TTS_v1_Base"
      "ckptA" "vocabA" LoadOutcome.success
      model_loaded_implies_instance_invariant.1,
   model_loaded_implies_instance_invariant.2.2.2.2.2.2.2.2 initialState
      "F5TTS_v1_Base" "ckptA" "vocabA" LoadOutcome.success rfl⟩
